import Mathlib

/-!
Verification of the social-platform connection and analytics subsystem of the
synccontent backend (apps/social_platforms). The Django models, views and
services are shallowly embedded as executable Lean definitions: database
tables become lists of records, timestamps become natural numbers, and the
outbound HTTP calls of the analytics fetchers become explicit response values
(oracles) passed in as arguments. Field and function names follow the Python
source wherever Lean allows it.
-/

namespace SyncContent

/-- Account status, from UserSocialAccount.STATUS_CHOICES in
apps/social_platforms/models.py. -/
inductive AccountStatus
  | connected
  | expired
  | revoked
  | error
  deriving DecidableEq, Repr

/-- Platform registry row, from the SocialPlatform model in
apps/social_platforms/models.py. Credentials may be blank, which means the
platform was never provisioned. -/
structure SocialPlatform where
  name : String
  display_name : String
  is_active : Bool
  oauth_client_id : String
  oauth_client_secret : String
  oauth_authorization_url : String
  oauth_token_url : String
  oauth_scope : String
  deriving DecidableEq, Repr

/-- The five supported platforms, from SocialPlatform.PLATFORM_CHOICES in
apps/social_platforms/models.py. -/
def PLATFORM_CHOICES : List (String × String) :=
  [("instagram", "Instagram"),
   ("tiktok", "TikTok"),
   ("youtube", "YouTube"),
   ("linkedin", "LinkedIn"),
   ("twitter", "Twitter/X")]

/-- Connected-account row, from the UserSocialAccount model in
apps/social_platforms/models.py. Tokens are stored as plain strings because
encrypt_token and decrypt_token are the identity in this code base
(development mode). Time is a natural number; token_expires_at is nullable. -/
structure UserSocialAccount where
  id : Nat
  user : Nat
  platform : String
  platform_user_id : String
  platform_username : String
  platform_display_name : String
  profile_picture_url : String
  access_token : String
  refresh_token : String
  token_expires_at : Option Nat
  status : AccountStatus
  deriving DecidableEq, Repr

/-- UserSocialAccount.is_token_expired: false when token_expires_at is null,
otherwise compares the current time against the expiry instant
(timezone.now() is greater or equal to token_expires_at). -/
def is_token_expired (now : Nat) (a : UserSocialAccount) : Bool :=
  match a.token_expires_at with
  | none => false
  | some t => decide (t ≤ now)

/-- The status recomputation performed by the UserSocialAccount.save override:
a connected account whose token is expired is lazily moved to expired before
the row is written. All other fields are written unchanged. -/
def saveAccount (now : Nat) (a : UserSocialAccount) : UserSocialAccount :=
  if is_token_expired now a ∧ a.status = AccountStatus.connected then
    { a with status := AccountStatus.expired }
  else
    a

/-- The fields exposed by UserSocialAccountSerializer in
apps/social_platforms/serializers.py that matter for the claims: the stored
status column and the computed is_expired method field. -/
structure SerializedAccount where
  id : Nat
  platform : String
  platform_username : String
  status : AccountStatus
  is_expired : Bool
  deriving DecidableEq, Repr

/-- UserSocialAccountSerializer: status is read straight from the row while
is_expired calls obj.is_token_expired(). -/
def serializeAccount (now : Nat) (a : UserSocialAccount) : SerializedAccount :=
  { id := a.id
    platform := a.platform
    platform_username := a.platform_username
    status := a.status
    is_expired := is_token_expired now a }

/-- The GET connected-accounts view (get_user_connected_accounts in
apps/social_platforms/views.py): filter the table by user and serialize.
No row is saved, so no status recomputation happens on this read path. -/
def get_user_connected_accounts (now userId : Nat)
    (db : List UserSocialAccount) : List SerializedAccount :=
  (db.filter (fun a => a.user == userId)).map (serializeAccount now)

/-- The defaults dictionary passed to UserSocialAccount.objects.update_or_create
by handle_oauth_callback in apps/social_platforms/views.py. -/
structure UpsertFields where
  platform_username : String
  platform_display_name : String
  profile_picture_url : String
  access_token : String
  refresh_token : String
  status : AccountStatus
  deriving DecidableEq, Repr

/-- Whether a row matches the (user, platform, platform_user_id) triple that
is the unique_together key of UserSocialAccount. -/
def matchesTriple (a : UserSocialAccount) (userId : Nat)
    (platformName puid : String) : Bool :=
  a.user == userId && a.platform == platformName && a.platform_user_id == puid

/-- The row built by update_or_create when no row matches the lookup keys:
lookup keys plus the defaults; token_expires_at is not among the defaults and
starts null. -/
def mkNewAccount (nextId userId : Nat) (platformName puid : String)
    (f : UpsertFields) : UserSocialAccount :=
  { id := nextId
    user := userId
    platform := platformName
    platform_user_id := puid
    platform_username := f.platform_username
    platform_display_name := f.platform_display_name
    profile_picture_url := f.profile_picture_url
    access_token := f.access_token
    refresh_token := f.refresh_token
    token_expires_at := none
    status := f.status }

/-- The in-place update performed by update_or_create on an existing row: the
defaults overwrite their fields, the lookup keys and the id are untouched,
and token_expires_at keeps its stored value. -/
def applyFields (a : UserSocialAccount) (f : UpsertFields) : UserSocialAccount :=
  { a with
    platform_username := f.platform_username
    platform_display_name := f.platform_display_name
    profile_picture_url := f.profile_picture_url
    access_token := f.access_token
    refresh_token := f.refresh_token
    status := f.status }

/-- UserSocialAccount.objects.update_or_create keyed on
(user, platform, platform_user_id): the first matching row is updated in
place, otherwise a fresh row is appended. The written row goes through the
save override, so its status is recomputed from the expiry. Returns the new
table and the wasCreated flag. -/
def update_or_create (now nextId userId : Nat) (platformName puid : String)
    (f : UpsertFields) :
    List UserSocialAccount → List UserSocialAccount × Bool
  | [] => ([saveAccount now (mkNewAccount nextId userId platformName puid f)], true)
  | a :: rest =>
    if matchesTriple a userId platformName puid then
      (saveAccount now (applyFields a f) :: rest, false)
    else
      let r := update_or_create now nextId userId platformName puid f rest
      (a :: r.1, r.2)

/-- How many rows of the table match a (user, platform, platform_user_id)
triple. The unique_together constraint of the model keeps this at most one. -/
def countTriple (db : List UserSocialAccount) (userId : Nat)
    (platformName puid : String) : Nat :=
  (db.filter (fun a => matchesTriple a userId platformName puid)).length

/-- Response of the provider token endpoint during code exchange, as consumed
by handle_oauth_callback: an HTTP status plus the optional tokens parsed from
the JSON body. -/
structure TokenResponse where
  status_code : Nat
  access_token : Option String
  refresh_token : Option String
  deriving DecidableEq, Repr

/-- The user-info record produced by get_platform_user_info in
apps/social_platforms/views.py. -/
structure PlatformUserInfo where
  id : String
  username : String
  display_name : String
  profile_picture : String
  deriving DecidableEq, Repr

/-- Outcome of the OAuth callback view, tagged by the HTTP response it sends:
badRequest is 400, notFound is 404, ok is the success payload. -/
inductive CallbackResult
  | badRequest (msg : String)
  | notFound (msg : String)
  | ok (created : Bool)
  deriving DecidableEq, Repr

/-- A message string used by the callback view. -/
def codeRequiredMsg : String := "Authorization code is required"

/-- A message string used by the callback view. -/
def exchangeFailedMsg : String := "Failed to exchange code for token"

/-- A message string used by the callback view. -/
def noAccessTokenMsg : String := "Failed to obtain access token"

/-- A message string used by the callback view. -/
def noUserInfoMsg : String := "Failed to get user information from platform"

/-- A message string used by the callback view. -/
def platformNotFoundMsg : String := "Platform not found"

/-- handle_oauth_callback from apps/social_platforms/views.py. The provider
token endpoint and the user-info call are oracles passed as arguments. The
state parameter and the stored session state are read but, in this source,
the comparison between them is commented out, so they do not influence the
control flow. The post-connect analytics fetch (best effort, touching only
the analytics tables) and the session cleanup are outside the account table
and are not modelled. Returns the account table after the request and the
HTTP outcome. -/
def handle_oauth_callback (now nextId userId : Nat)
    (platforms : List SocialPlatform) (platform_name : String)
    (code state stored_state : Option String)
    (exchange : TokenResponse) (user_info : Option PlatformUserInfo)
    (db : List UserSocialAccount) :
    List UserSocialAccount × CallbackResult :=
  match code with
  | none => (db, CallbackResult.badRequest codeRequiredMsg)
  | some c =>
    if c = "" then (db, CallbackResult.badRequest codeRequiredMsg)
    else
      -- The CSRF comparison of state against stored_state is disabled in the
      -- source (commented out), so both values are ignored here.
      let _ := state
      let _ := stored_state
      match platforms.find? (fun p => p.name == platform_name && p.is_active) with
      | none => (db, CallbackResult.notFound platformNotFoundMsg)
      | some _ =>
        if 400 ≤ exchange.status_code then
          (db, CallbackResult.badRequest exchangeFailedMsg)
        else
          match exchange.access_token with
          | none => (db, CallbackResult.badRequest noAccessTokenMsg)
          | some tok =>
            match user_info with
            | none => (db, CallbackResult.badRequest noUserInfoMsg)
            | some ui =>
              let fields : UpsertFields :=
                { platform_username := ui.username
                  platform_display_name := ui.display_name
                  profile_picture_url := ui.profile_picture
                  access_token := tok
                  refresh_token := (exchange.refresh_token).getD ""
                  status := AccountStatus.connected }
              let r := update_or_create now nextId userId platform_name ui.id fields db
              (r.1, CallbackResult.ok r.2)

/-- Iterating the callback: the account table after running the same callback
request n times in a row. -/
def callbackIter (now nextId userId : Nat)
    (platforms : List SocialPlatform) (platform_name : String)
    (code state stored_state : Option String)
    (exchange : TokenResponse) (user_info : Option PlatformUserInfo) :
    Nat → List UserSocialAccount → List UserSocialAccount
  | 0, db => db
  | n + 1, db =>
    callbackIter now nextId userId platforms platform_name code state
      stored_state exchange user_info n
      (handle_oauth_callback now nextId userId platforms platform_name code
        state stored_state exchange user_info db).1

/-- The platform-specific misconfiguration message table of initiate_oauth in
apps/social_platforms/views.py (the error_messages dictionary). -/
def error_messages : List (String × String) :=
  [("instagram", "Instagram OAuth is not configured. Please set up OAuth credentials in Facebook Developers Console."),
   ("youtube", "YouTube OAuth is not configured. Please set up OAuth credentials in Google Cloud Console."),
   ("linkedin", "LinkedIn OAuth is not configured. Please set up OAuth credentials in LinkedIn Developer Portal."),
   ("twitter", "Twitter OAuth is not configured. Please set up OAuth credentials in Twitter Developer Portal."),
   ("tiktok", "TikTok OAuth is not configured. Please set up OAuth credentials in TikTok Developers Portal.")]

/-- The message picked by error_messages.get(platform_name, fallback): the
platform-specific entry when one exists, otherwise the generic
display-name-based fallback. -/
def misconfiguredMessage (platform_name display_name : String) : String :=
  match error_messages.lookup platform_name with
  | some m => m
  | none => display_name ++ " OAuth is not configured. Please contact administrator."

/-- The details string of the 503 misconfiguration response. -/
def misconfiguredDetails (platform_name : String) : String :=
  "Missing OAuth credentials for " ++ platform_name ++
    ". Client ID and Client Secret are required."

/-- The authorization URL built by initiate_oauth: LinkedIn uses a hand-written
parameter order per its documentation, every other platform goes through
urlencode over the oauth_params dictionary in insertion order, with the
platform-specific extras appended (access_type and prompt for YouTube). -/
def buildAuthorizationUrl (p : SocialPlatform) (platform_name state frontend : String) :
    String :=
  let redirect := frontend ++ "/auth/callback/" ++ platform_name
  if platform_name = "linkedin" then
    p.oauth_authorization_url ++ "?response_type=code&client_id=" ++
      p.oauth_client_id ++ "&redirect_uri=" ++ redirect ++ "&state=" ++ state ++
      "&scope=" ++ p.oauth_scope
  else
    let extras :=
      if platform_name = "youtube" then ("&access_type=offline&prompt=consent")
      else ("")
    p.oauth_authorization_url ++ "?client_id=" ++ p.oauth_client_id ++
      "&redirect_uri=" ++ redirect ++ "&scope=" ++ p.oauth_scope ++
      "&state=" ++ state ++ "&response_type=code" ++ extras

/-- Outcome of the connect-initiation view, tagged by the HTTP response:
notFound is 404, setupRequired is the 503 body carrying setup_required=true,
ok is the 200 body with the authorization URL and the issued state. -/
inductive InitResponse
  | notFound
  | setupRequired (msg details platform : String)
  | ok (authorization_url state : String)
  deriving DecidableEq, Repr

/-- initiate_oauth from apps/social_platforms/views.py: look the platform up
among the active rows, reject with the 503 setup_required response when
either OAuth credential is blank, otherwise issue the state and the
authorization URL. -/
def initiate_oauth (platforms : List SocialPlatform) (platform_name : String)
    (state frontend : String) : InitResponse :=
  match platforms.find? (fun p => p.name == platform_name && p.is_active) with
  | none => InitResponse.notFound
  | some p =>
    if p.oauth_client_id = "" ∨ p.oauth_client_secret = "" then
      InitResponse.setupRequired
        (misconfiguredMessage platform_name p.display_name)
        (misconfiguredDetails platform_name)
        platform_name
    else
      InitResponse.ok (buildAuthorizationUrl p platform_name state frontend) state

/-- Statistics block of one item of the YouTube channels response, as read by
fetch_channel_analytics in apps/social_platforms/services.py. -/
structure ChannelStatistics where
  subscriberCount : Nat
  videoCount : Nat
  viewCount : Nat
  deriving DecidableEq, Repr

/-- A response of the YouTube channels endpoint: HTTP status plus the parsed
items array. -/
structure ChannelsResponse where
  status_code : Nat
  items : List ChannelStatistics
  deriving DecidableEq, Repr

/-- A response of the Google token refresh endpoint, as consumed by
YouTubeAnalyticsService.refresh_access_token. -/
structure RefreshHttpResponse where
  status_code : Nat
  access_token : Option String
  expires_in : Option Nat
  deriving DecidableEq, Repr

/-- The analytics dictionary computed by fetch_channel_analytics from the
first channel item. -/
structure YtAnalyticsData where
  subscriber_count : Nat
  video_count : Nat
  total_view_count : Nat
  deriving DecidableEq, Repr

/-- YouTubeAnalyticsService.refresh_access_token: on a 200 response carrying
an access token, store the token on the account, update the expiry when
expires_in is present, save the row (running the status recomputation), and
return the new token. On any other response the account is left untouched and
none is returned. -/
def refresh_access_token (now : Nat) (account : UserSocialAccount)
    (resp : RefreshHttpResponse) : Option String × UserSocialAccount :=
  if resp.status_code = 200 then
    match resp.access_token with
    | some tok =>
      let a1 := { account with access_token := tok }
      let a2 :=
        match resp.expires_in with
        | some s => { a1 with token_expires_at := some (now + s) }
        | none => a1
      (some tok, saveAccount now a2)
    | none => (none, account)
  else (none, account)

/-- The tail of fetch_channel_analytics after the 401 handling: the
raise_for_status call turns any status of 400 or above into a
RequestException, whose handler marks the account expired only when that
status is 401; a healthy response with no items yields no data; otherwise the
analytics record is built from the first item. The second component is the
account row after the call, the third is the number of channels requests
made. -/
def finishChannels (now : Nat) (account : UserSocialAccount)
    (resp : ChannelsResponse) (calls : Nat) :
    Option YtAnalyticsData × UserSocialAccount × Nat :=
  if 400 ≤ resp.status_code then
    if resp.status_code = 401 then
      (none, saveAccount now { account with status := AccountStatus.expired }, calls)
    else
      (none, account, calls)
  else
    match resp.items with
    | [] => (none, account, calls)
    | stats :: _ =>
      (some { subscriber_count := stats.subscriberCount
              video_count := stats.videoCount
              total_view_count := stats.viewCount },
       account, calls)

/-- YouTubeAnalyticsService.fetch_channel_analytics: the channels endpoint is
an oracle from the bearer token used to the response obtained, and the token
refresh endpoint is a fixed oracle response. A 401 on the first call triggers
at most one refresh attempt and, only when the refresh hands back a token,
exactly one retry with the new token; when the refresh fails or no refresh
token is stored the function returns none at once, leaving the account row
exactly as it was. Returns the analytics data (none on failure), the account
row after the call, and how many channels requests were made. -/
def fetch_channel_analytics (now : Nat) (account : UserSocialAccount)
    (provider : String → ChannelsResponse) (refreshResp : RefreshHttpResponse) :
    Option YtAnalyticsData × UserSocialAccount × Nat :=
  if account.platform ≠ "youtube" then (none, account, 0)
  else if account.access_token = "" then (none, account, 0)
  else
    let r1 := provider account.access_token
    if r1.status_code = 401 then
      if account.refresh_token ≠ "" then
        match refresh_access_token now account refreshResp with
        | (some newTok, account2) =>
          finishChannels now account2 (provider newTok) 2
        | (none, account2) => (none, account2, 1)
      else (none, account, 1)
    else
      finishChannels now account r1 1

/-- One Instagram media item as counted by
InstagramAnalyticsService.fetch_account_analytics: only the like and comment
counters feed the engagement computation. -/
structure IgMedia where
  like_count : Nat
  comments_count : Nat
  deriving DecidableEq, Repr

/-- Sum of like_count over a media list. -/
def totalLikes (media : List IgMedia) : Nat :=
  (media.map (fun m => m.like_count)).sum

/-- Sum of comments_count over a media list. -/
def totalComments (media : List IgMedia) : Nat :=
  (media.map (fun m => m.comments_count)).sum

/-- The engagement_rate computed by
InstagramAnalyticsService.fetch_account_analytics in
apps/social_platforms/services.py: the rate starts at zero and is replaced,
only when the media list is non-empty and the follower count is positive, by
total engagement over followers times post count, times one hundred. -/
def igEngagementRate (follower_count : Nat) (media : List IgMedia) : ℚ :=
  if media.isEmpty then 0
  else if 0 < follower_count then
    (((totalLikes media : ℚ) + (totalComments media : ℚ)) /
      ((follower_count : ℚ) * (media.length : ℚ))) * 100
  else 0

/-- Modelled from the claim wording: the engagement formula of the spec,
likes plus comments over followers times post count, times one hundred when
followers are positive, zero otherwise. Stated independently of the source so
the source computation can be proved to refine it. -/
def igEngagementRateSpec (followers likes comments postCount : Nat) : ℚ :=
  if 0 < followers then
    (((likes : ℚ) + (comments : ℚ)) / ((followers : ℚ) * (postCount : ℚ))) * 100
  else 0

/-- The concrete media list of the spec example: five posts totalling forty
likes and ten comments. -/
def exampleMedia : List IgMedia :=
  [{ like_count := 10, comments_count := 2 },
   { like_count := 10, comments_count := 2 },
   { like_count := 10, comments_count := 2 },
   { like_count := 5, comments_count := 2 },
   { like_count := 5, comments_count := 2 }]

/-- The per-platform analytics services, as listed in
SocialAnalyticsService.PLATFORM_SERVICES in apps/social_platforms/services.py.
Only YouTube, Instagram and LinkedIn appear in the table. -/
inductive ServiceKind
  | youtubeService
  | instagramService
  | linkedinService
  deriving DecidableEq, Repr

/-- The PLATFORM_SERVICES lookup table. -/
def PLATFORM_SERVICES : List (String × ServiceKind) :=
  [("youtube", ServiceKind.youtubeService),
   ("instagram", ServiceKind.instagramService),
   ("linkedin", ServiceKind.linkedinService)]

/-- Which service classes define fetch_channel_analytics (only the YouTube
service does). -/
def hasChannelAnalytics : ServiceKind → Bool
  | ServiceKind.youtubeService => true
  | _ => false

/-- Which service classes define fetch_account_analytics (the Instagram and
LinkedIn services do). -/
def hasAccountAnalytics : ServiceKind → Bool
  | ServiceKind.youtubeService => false
  | _ => true

/-- Outcome of the orchestrator dispatch: which fetch method of which service
was invoked, or the fall-through that logs that no analytics service is
available and returns None. -/
inductive DispatchResult
  | channelAnalytics (s : ServiceKind)
  | accountAnalytics (s : ServiceKind)
  | noServiceAvailable
  deriving DecidableEq, Repr

/-- SocialAnalyticsService.update_account_analytics: look the platform name up
in PLATFORM_SERVICES and dispatch to fetch_channel_analytics or
fetch_account_analytics on the found service; any platform without a service
falls through to the no-service warning. -/
def update_account_analytics (platformName : String) : DispatchResult :=
  match PLATFORM_SERVICES.lookup platformName with
  | some s =>
    if hasChannelAnalytics s then DispatchResult.channelAnalytics s
    else if hasAccountAnalytics s then DispatchResult.accountAnalytics s
    else DispatchResult.noServiceAvailable
  | none => DispatchResult.noServiceAvailable

/-- Outcome of the disconnect view: success deletes the row, notFound is the
404 response. -/
inductive DeleteResult
  | ok
  | notFound
  deriving DecidableEq, Repr

/-- disconnect_account from apps/social_platforms/views.py: the row is looked
up by id and owning user together; only a row matching both is deleted, and a
missing match answers 404 leaving the table untouched. -/
def disconnect_account (db : List UserSocialAccount) (userId accountId : Nat) :
    List UserSocialAccount × DeleteResult :=
  match db.find? (fun a => a.id == accountId && a.user == userId) with
  | some a => (db.filter (fun b => b.id != a.id), DeleteResult.ok)
  | none => (db, DeleteResult.notFound)

/-- A fully configured active YouTube platform row, used as concrete input. -/
def ytPlatformCfg : SocialPlatform :=
  { name := "youtube"
    display_name := "YouTube"
    is_active := true
    oauth_client_id := "cid"
    oauth_client_secret := "csecret"
    oauth_authorization_url := "https://accounts.google.com/o/oauth2/auth"
    oauth_token_url := "https://oauth2.googleapis.com/token"
    oauth_scope := "scope-a,scope-b" }

/-- The same platform row with a blank client id, i.e. never provisioned. -/
def ytPlatformNoCreds : SocialPlatform :=
  { ytPlatformCfg with oauth_client_id := "" }

/-- A successful token-exchange response used as concrete input. -/
def exchangeOk : TokenResponse :=
  { status_code := 200, access_token := some ("tok"), refresh_token := some ("rtok") }

/-- A concrete platform user-info record. -/
def ytUserInfo : PlatformUserInfo :=
  { id := "chan1"
    username := "mychannel"
    display_name := "My Channel"
    profile_picture := "" }

/-- A concrete connected YouTube account owned by user 1, with a refresh
token and no stored expiry. -/
def ytConnectedAccount : UserSocialAccount :=
  { id := 3
    user := 1
    platform := "youtube"
    platform_user_id := "chan1"
    platform_username := "mychannel"
    platform_display_name := "My Channel"
    profile_picture_url := ""
    access_token := "oldtok"
    refresh_token := "rtok"
    token_expires_at := none
    status := AccountStatus.connected }

/-- The same account without a refresh token. -/
def ytNoRefreshAccount : UserSocialAccount :=
  { ytConnectedAccount with id := 4, refresh_token := "" }

/-- A connected account whose token expiry (instant 5) lies in the past of
the read instant used in the theorems (instant 10). -/
def expiredTokenAccount : UserSocialAccount :=
  { ytConnectedAccount with id := 7, token_expires_at := some 5 }

/-- An account owned by user 2, used to probe cross-user deletion. -/
def otherUserAccount : UserSocialAccount :=
  { ytConnectedAccount with id := 9, user := 2 }

/-- A provider oracle that answers 401 to every bearer token. -/
def provider401 : String → ChannelsResponse :=
  fun _ => { status_code := 401, items := [] }

/-- A provider oracle that accepts exactly the refreshed token and answers a
healthy statistics payload for it, while rejecting every other token. -/
def providerAfterRefresh : String → ChannelsResponse :=
  fun tok =>
    if tok = "newtok" then
      { status_code := 200
        items := [{ subscriberCount := 10, videoCount := 2, viewCount := 100 }] }
    else { status_code := 401, items := [] }

/-- A failing refresh-endpoint response. -/
def refreshFailResp : RefreshHttpResponse :=
  { status_code := 400, access_token := none, expires_in := none }

/-- A successful refresh-endpoint response issuing the token newtok. -/
def refreshOkResp : RefreshHttpResponse :=
  { status_code := 200, access_token := some ("newtok"), expires_in := some 3600 }

/-- The mismatching state pair fed to the callback in the concrete run: the
browser supplies one value while the session stored another. -/
def suppliedState : String := "EVIL"

/-- The state value the session stored when the flow was initiated. -/
def storedStateValue : String := "LEGIT"

/-- The authorization code of the concrete callback run. -/
def goodCode : String := "goodcode"

/-- The save override never changes the access token. -/
theorem saveAccount_access_token (now : Nat) (a : UserSocialAccount) :
    (saveAccount now a).access_token = a.access_token := by
  unfold saveAccount
  split <;> rfl

/-- The save override never changes the lookup keys of the unique triple. -/
theorem matchesTriple_saveAccount (now : Nat) (a : UserSocialAccount)
    (u : Nat) (pn puid : String) :
    matchesTriple (saveAccount now a) u pn puid = matchesTriple a u pn puid := by
  unfold saveAccount
  split <;> rfl

/-- Updating the default fields never changes the lookup keys. -/
theorem matchesTriple_applyFields (a : UserSocialAccount) (f : UpsertFields)
    (u : Nat) (pn puid : String) :
    matchesTriple (applyFields a f) u pn puid = matchesTriple a u pn puid := rfl

/-- A freshly created row matches the triple it was created for. -/
theorem matchesTriple_mkNewAccount (nextId u : Nat) (pn puid : String)
    (f : UpsertFields) :
    matchesTriple (mkNewAccount nextId u pn puid f) u pn puid = true := by
  simp [matchesTriple, mkNewAccount]

/-- Claim C10: an account whose token_expires_at is null is never considered
expired: is_token_expired is false at every instant, the save override leaves
the status untouched, and the serializer always reports is_expired as false. -/
theorem c10_null_expiry_never_expires (now : Nat) (a : UserSocialAccount)
    (h : a.token_expires_at = none) :
    is_token_expired now a = false ∧
    (saveAccount now a).status = a.status ∧
    (serializeAccount now a).is_expired = false := by
  have hexp : is_token_expired now a = false := by
    unfold is_token_expired
    rw [h]
  refine ⟨hexp, ?_, ?_⟩
  · unfold saveAccount
    rw [if_neg]
    simp [hexp]
  · simp [serializeAccount, hexp]

/-- Witness for claim C10 at a concrete account and instant. -/
theorem c10_null_expiry_never_expires_witness :
    is_token_expired 999 ytConnectedAccount = false ∧
    (saveAccount 999 ytConnectedAccount).status = ytConnectedAccount.status ∧
    (serializeAccount 999 ytConnectedAccount).is_expired = false :=
  c10_null_expiry_never_expires 999 ytConnectedAccount (by rfl)

/-- Claim C2, counterexample: at instant 10 the account expiredTokenAccount
(expiry instant 5, stored status connected) is listed by the connected-accounts
read path with status still connected, not expired, even though the same
response reports is_expired as true; so a pure read does not recompute the
status column. -/
theorem c2_read_keeps_stored_status_counterexample :
    (get_user_connected_accounts 10 1 [expiredTokenAccount]).map
        SerializedAccount.status = [AccountStatus.connected] ∧
    (get_user_connected_accounts 10 1 [expiredTokenAccount]).map
        SerializedAccount.is_expired = [true] ∧
    AccountStatus.connected ≠ AccountStatus.expired := by
  refine ⟨rfl, rfl, ?_⟩
  decide

/-- Claim C2 as amended: for an account whose expiry lies at or before the
current instant, any read serializes is_expired as true but keeps the stored
status column unchanged; the status is recomputed to expired only when the
row is saved, i.e. on a write touching the record. -/
theorem c2_lazy_expiry_amended (now t : Nat) (a : UserSocialAccount)
    (h : a.token_expires_at = some t) (hle : t ≤ now) :
    (serializeAccount now a).is_expired = true ∧
    (serializeAccount now a).status = a.status ∧
    (a.status = AccountStatus.connected →
      (saveAccount now a).status = AccountStatus.expired) := by
  have hexp : is_token_expired now a = true := by
    unfold is_token_expired
    rw [h]
    simpa using hle
  refine ⟨by simp [serializeAccount, hexp], rfl, ?_⟩
  intro hc
  unfold saveAccount
  rw [if_pos ⟨hexp, hc⟩]

/-- Witness for the amended claim C2 at a concrete account and instant. -/
theorem c2_lazy_expiry_amended_witness :
    (serializeAccount 10 expiredTokenAccount).is_expired = true ∧
    (serializeAccount 10 expiredTokenAccount).status = expiredTokenAccount.status ∧
    (expiredTokenAccount.status = AccountStatus.connected →
      (saveAccount 10 expiredTokenAccount).status = AccountStatus.expired) :=
  c2_lazy_expiry_amended 10 5 expiredTokenAccount (by rfl) (by decide)

/-- Claim C9: a delete request by user 1 for an account id that exists but is
owned by another user answers 404 and leaves the table unchanged, because the
row lookup filters on id and owner together. -/
theorem c9_no_cross_user_deletion (db : List UserSocialAccount)
    (userId accountId : Nat) (a : UserSocialAccount)
    (hmem : a ∈ db) (hid : a.id = accountId) (hother : a.user ≠ userId)
    (huniq : ∀ b ∈ db, b.id = accountId → b = a) :
    disconnect_account db userId accountId = (db, DeleteResult.notFound) := by
  have hfind : db.find? (fun b => b.id == accountId && b.user == userId) = none := by
    rw [List.find?_eq_none]
    intro b hb
    by_cases hbid : b.id = accountId
    · have hba : b = a := huniq b hb hbid
      subst hba
      simp [hbid, hother]
    · simp [hbid]
  unfold disconnect_account
  rw [hfind]

/-- Witness for claim C9: user 1 cannot delete the account of user 2. -/
theorem c9_no_cross_user_deletion_witness :
    disconnect_account [otherUserAccount] 1 9 = ([otherUserAccount], DeleteResult.notFound) :=
  c9_no_cross_user_deletion [otherUserAccount] 1 9 otherUserAccount
    (by decide) (by rfl) (by decide) (by decide)

/-- Claim C7: when the platform is found among the active rows but one of the
OAuth credentials is blank, initiate_oauth answers the 503 setup_required
response carrying the platform-specific misconfiguration message, and in
particular never issues an authorization URL or state. -/
theorem c7_misconfigured_platform_setup_required
    (platforms : List SocialPlatform) (p : SocialPlatform)
    (platform_name state frontend : String)
    (hfind : platforms.find? (fun q => q.name == platform_name && q.is_active) = some p)
    (hcred : p.oauth_client_id = "" ∨ p.oauth_client_secret = "") :
    initiate_oauth platforms platform_name state frontend =
      InitResponse.setupRequired (misconfiguredMessage platform_name p.display_name)
        (misconfiguredDetails platform_name) platform_name ∧
    ∀ url st, initiate_oauth platforms platform_name state frontend ≠
      InitResponse.ok url st := by
  have heq : initiate_oauth platforms platform_name state frontend =
      InitResponse.setupRequired (misconfiguredMessage platform_name p.display_name)
        (misconfiguredDetails platform_name) platform_name := by
    unfold initiate_oauth
    rw [hfind]
    exact if_pos hcred
  refine ⟨heq, ?_⟩
  intro url st
  rw [heq]
  intro hcontra
  exact InitResponse.noConfusion hcontra

/-- Witness for claim C7 at a concrete unprovisioned YouTube platform. -/
theorem c7_misconfigured_platform_setup_required_witness :
    initiate_oauth [ytPlatformNoCreds] ("youtube") ("st") ("https://front") =
      InitResponse.setupRequired
        (misconfiguredMessage ("youtube") ytPlatformNoCreds.display_name)
        (misconfiguredDetails ("youtube")) ("youtube") ∧
    ∀ url st, initiate_oauth [ytPlatformNoCreds] ("youtube") ("st") ("https://front") ≠
      InitResponse.ok url st :=
  c7_misconfigured_platform_setup_required [ytPlatformNoCreds] ytPlatformNoCreds
    ("youtube") ("st") ("https://front") (by rfl) (Or.inl (by rfl))

/-- Claim C8, counterexample: twitter is one of the five supported platforms
of PLATFORM_CHOICES, yet the orchestrator dispatch falls through to the
no-analytics-service warning for it, refuting the claim that a supported
platform always reaches a platform-specific fetcher. -/
theorem c8_twitter_has_no_service_counterexample :
    update_account_analytics ("twitter") = DispatchResult.noServiceAvailable ∧
    ("twitter", "Twitter/X") ∈ PLATFORM_CHOICES := by
  refine ⟨rfl, ?_⟩
  decide

/-- Claim C8 as amended: the orchestrator dispatches youtube to the channel
fetcher and instagram and linkedin to their account fetchers, but twitter and
tiktok have no entry in PLATFORM_SERVICES and fall through with the
no-analytics-service result. -/
theorem c8_dispatch_amended :
    update_account_analytics ("youtube") =
      DispatchResult.channelAnalytics ServiceKind.youtubeService ∧
    update_account_analytics ("instagram") =
      DispatchResult.accountAnalytics ServiceKind.instagramService ∧
    update_account_analytics ("linkedin") =
      DispatchResult.accountAnalytics ServiceKind.linkedinService ∧
    update_account_analytics ("twitter") = DispatchResult.noServiceAvailable ∧
    update_account_analytics ("tiktok") = DispatchResult.noServiceAvailable :=
  ⟨rfl, rfl, rfl, rfl, rfl⟩

/-- Claim C1: the source disables the CSRF comparison between the supplied
state and the stored state (the check is commented out in
handle_oauth_callback), so a callback whose state differs from the stored one
is not rejected: with a valid code and a successful exchange it creates the
account row and answers success instead of the claimed 400. This run starts
from an empty table, supplies state EVIL while the session stored LEGIT, and
ends with one created row for (user 1, youtube, chan1). -/
theorem c1_callback_accepts_mismatched_state :
    (handle_oauth_callback 100 11 1 [ytPlatformCfg] ("youtube") (some goodCode)
        (some suppliedState) (some storedStateValue) exchangeOk (some ytUserInfo)
        []).2 = CallbackResult.ok true ∧
    countTriple
      (handle_oauth_callback 100 11 1 [ytPlatformCfg] ("youtube") (some goodCode)
        (some suppliedState) (some storedStateValue) exchangeOk (some ytUserInfo)
        []).1 1 ("youtube") ("chan1") = 1 ∧
    suppliedState ≠ storedStateValue := by
  refine ⟨rfl, rfl, ?_⟩
  decide

/-- Claim C3: when the channels call answers 401 and the refresh fails (the
refresh endpoint answers 400), or when no refresh token is stored, the fetch
returns none after a single provider call and hands back the account row
completely unchanged: its status stays connected instead of being set to
expired. The row is not deleted, but the claimed expiry marking never
happens on these paths. -/
theorem c3_refresh_failure_leaves_account_connected :
    fetch_channel_analytics 50 ytConnectedAccount provider401 refreshFailResp =
      (none, ytConnectedAccount, 1) ∧
    fetch_channel_analytics 50 ytNoRefreshAccount provider401 refreshFailResp =
      (none, ytNoRefreshAccount, 1) ∧
    ytConnectedAccount.status = AccountStatus.connected ∧
    ytNoRefreshAccount.status = AccountStatus.connected := by
  refine ⟨rfl, rfl, rfl, rfl⟩

/-- Claim C6: the Instagram engagement rate computed by the fetcher equals
the engagement formula of the spec, likes plus comments over followers times
post count, times one hundred when followers are positive and zero otherwise;
and at the example of one thousand followers, forty likes, ten comments and
five posts the rate is exactly one. -/
theorem c6_instagram_engagement_rate :
    (∀ (followers : Nat) (media : List IgMedia),
      igEngagementRate followers media =
        igEngagementRateSpec followers (totalLikes media) (totalComments media)
          media.length) ∧
    igEngagementRate 1000 exampleMedia = 1 := by
  constructor
  · intro followers media
    cases media with
    | nil =>
      simp [igEngagementRate, igEngagementRateSpec, totalLikes, totalComments]
    | cons m rest =>
      simp [igEngagementRate, igEngagementRateSpec]
  · norm_num [igEngagementRate, exampleMedia, totalLikes, totalComments]

/-- The tail of the fetch reports exactly the number of provider calls it was
given. -/
theorem finishChannels_calls (now : Nat) (a : UserSocialAccount)
    (resp : ChannelsResponse) (calls : Nat) :
    (finishChannels now a resp calls).2.2 = calls := by
  unfold finishChannels
  split_ifs <;> try rfl
  cases resp.items <;> rfl

/-- The tail of the fetch never changes the access token stored on the row. -/
theorem finishChannels_access_token (now : Nat) (a : UserSocialAccount)
    (resp : ChannelsResponse) (calls : Nat) :
    (finishChannels now a resp calls).2.1.access_token = a.access_token := by
  unfold finishChannels
  split_ifs
  · exact saveAccount_access_token now _
  · rfl
  · cases resp.items <;> rfl

/-- A healthy response with at least one channel item yields analytics data. -/
theorem finishChannels_isSome (now : Nat) (a : UserSocialAccount)
    (resp : ChannelsResponse) (calls : Nat)
    (hok : resp.status_code < 400) (hitems : resp.items ≠ []) :
    (finishChannels now a resp calls).1.isSome = true := by
  unfold finishChannels
  rw [if_neg (by omega)]
  cases hi : resp.items with
  | nil => exact absurd hi hitems
  | cons s t => simp

/-- A refresh response that is not a 200 carrying a token leaves the account
untouched and yields no new token. -/
theorem refresh_access_token_fail (now : Nat) (a : UserSocialAccount)
    (resp : RefreshHttpResponse)
    (h : resp.status_code ≠ 200 ∨ resp.access_token = none) :
    refresh_access_token now a resp = (none, a) := by
  unfold refresh_access_token
  rcases h with h | h
  · rw [if_neg h]
  · by_cases h200 : resp.status_code = 200
    · rw [if_pos h200, h]
    · rw [if_neg h200]

/-- The account handed back by a successful refresh carries the new token. -/
theorem refresh_access_token_ok (now : Nat) (a : UserSocialAccount)
    (resp : RefreshHttpResponse) (newTok : String)
    (h200 : resp.status_code = 200) (htok : resp.access_token = some newTok) :
    (refresh_access_token now a resp).1 = some newTok ∧
    (refresh_access_token now a resp).2.access_token = newTok := by
  unfold refresh_access_token
  rw [if_pos h200, htok]
  cases hexp : resp.expires_in with
  | none => exact ⟨rfl, saveAccount_access_token now _⟩
  | some s => exact ⟨rfl, saveAccount_access_token now _⟩

/-- Claim C5, counterexample: a concrete fetch that receives a 401 while a
refresh token exists, whose refresh attempt fails, makes exactly one provider
call in total; the claimed retry (which would make the total two) never
happens, refuting the exactly-once retry for every 401 with a refresh token
present. -/
theorem c5_no_retry_when_refresh_fails_counterexample :
    (fetch_channel_analytics 50 ytConnectedAccount provider401
        refreshFailResp).2.2 = 1 ∧
    (fetch_channel_analytics 50 ytConnectedAccount provider401
        refreshFailResp).2.2 ≠ 2 ∧
    ytConnectedAccount.refresh_token ≠ "" ∧
    (provider401 ytConnectedAccount.access_token).status_code = 401 := by
  refine ⟨rfl, by decide, by decide, rfl⟩

/-- Claim C5 as amended: when a fetch receives a 401 while a refresh token
exists, a single refresh attempt is made; when the refresh succeeds the
provider call is retried exactly once (two provider calls in total, never
more), the refreshed token is persisted on the returned account row, and if
the retried call is healthy and returns channel data the fetch yields a
normal analytics result; when the refresh fails the fetch stops after the
single initial provider call, with no retry, and returns the error result. -/
theorem c5_single_refresh_and_retry_amended (now : Nat)
    (account : UserSocialAccount) (provider : String → ChannelsResponse)
    (refreshResp : RefreshHttpResponse)
    (hplat : account.platform = "youtube")
    (htok : account.access_token ≠ "")
    (h401 : (provider account.access_token).status_code = 401)
    (hrt : account.refresh_token ≠ "") :
    (∀ newTok : String, refreshResp.status_code = 200 →
      refreshResp.access_token = some newTok →
      (fetch_channel_analytics now account provider refreshResp).2.2 = 2 ∧
      (fetch_channel_analytics now account provider refreshResp).2.1.access_token
        = newTok ∧
      ((provider newTok).status_code < 400 → (provider newTok).items ≠ [] →
        (fetch_channel_analytics now account provider refreshResp).1.isSome = true)) ∧
    ((refreshResp.status_code ≠ 200 ∨ refreshResp.access_token = none) →
      (fetch_channel_analytics now account provider refreshResp).2.2 = 1 ∧
      (fetch_channel_analytics now account provider refreshResp).1 = none) := by
  have hbody : fetch_channel_analytics now account provider refreshResp =
      (match refresh_access_token now account refreshResp with
        | (some newTok, account2) =>
          finishChannels now account2 (provider newTok) 2
        | (none, account2) => (none, account2, 1)) := by
    unfold fetch_channel_analytics
    rw [if_neg (by simp [hplat]), if_neg htok, if_pos h401, if_pos hrt]
  constructor
  · intro newTok h200 hsome
    have hfst := (refresh_access_token_ok now account refreshResp newTok h200 hsome).1
    have hsnd := (refresh_access_token_ok now account refreshResp newTok h200 hsome).2
    rcases hp : refresh_access_token now account refreshResp with ⟨o, a2⟩
    rw [hp] at hfst hsnd
    have ho : o = some newTok := hfst
    have ha : a2.access_token = newTok := hsnd
    subst ho
    have hres : fetch_channel_analytics now account provider refreshResp =
        finishChannels now a2 (provider newTok) 2 := by
      rw [hbody, hp]
    exact ⟨by rw [hres, finishChannels_calls],
      by rw [hres, finishChannels_access_token]; exact ha,
      fun hok hitems => by
        rw [hres]; exact finishChannels_isSome now a2 _ 2 hok hitems⟩
  · intro hfail
    have hres : fetch_channel_analytics now account provider refreshResp =
        (none, account, 1) := by
      rw [hbody, refresh_access_token_fail now account refreshResp hfail]
    exact ⟨by rw [hres], by rw [hres]⟩

/-- Witness for the amended claim C5 at a concrete account, provider oracle
and refresh response: the refresh succeeds, the provider accepts the new
token, so the fetch makes exactly two provider calls, persists newtok on the
account and returns analytics data. -/
theorem c5_single_refresh_and_retry_amended_witness :
    (fetch_channel_analytics 50 ytConnectedAccount providerAfterRefresh
        refreshOkResp).2.2 = 2 ∧
    (fetch_channel_analytics 50 ytConnectedAccount providerAfterRefresh
        refreshOkResp).2.1.access_token = "newtok" ∧
    (fetch_channel_analytics 50 ytConnectedAccount providerAfterRefresh
        refreshOkResp).1.isSome = true := by
  have h := (c5_single_refresh_and_retry_amended 50 ytConnectedAccount
      providerAfterRefresh refreshOkResp (by rfl) (by decide) (by rfl)
      (by decide)).1 ("newtok") (by rfl) (by rfl)
  exact ⟨h.1, h.2.1, h.2.2 (by decide) (by decide)⟩

/-- One update_or_create run leaves exactly one row for the written triple
when the table held at most one, and more generally turns an absent triple
into a single row while keeping the row count of a present triple unchanged
(the first matching row is updated in place). -/
theorem countTriple_update_or_create (now nextId u : Nat) (pn puid : String)
    (f : UpsertFields) (db : List UserSocialAccount) :
    countTriple (update_or_create now nextId u pn puid f db).1 u pn puid =
      if countTriple db u pn puid = 0 then 1 else countTriple db u pn puid := by
  induction db with
  | nil =>
    simp [update_or_create, countTriple, List.filter,
      matchesTriple_saveAccount, matchesTriple_mkNewAccount]
  | cons a rest ih =>
    by_cases h : matchesTriple a u pn puid
    · simp [update_or_create, h, countTriple, List.filter_cons,
        matchesTriple_saveAccount, matchesTriple_applyFields]
    · simp only [update_or_create, h, Bool.false_eq_true, if_false]
      simp only [countTriple, List.filter_cons, h] at ih ⊢
      simpa using ih

/-- The account table after one successful callback run is the table produced
by update_or_create on the platform user id of the fetched user info. -/
theorem handle_oauth_callback_success_db (now nextId userId : Nat)
    (platforms : List SocialPlatform) (platform_name : String)
    (c : String) (state stored_state : Option String)
    (exchange : TokenResponse) (ui : PlatformUserInfo) (p : SocialPlatform)
    (tok : String) (db : List UserSocialAccount)
    (hc : ¬ c = "")
    (hp : platforms.find? (fun q => q.name == platform_name && q.is_active) = some p)
    (hx : exchange.status_code < 400)
    (ht : exchange.access_token = some tok) :
    (handle_oauth_callback now nextId userId platforms platform_name (some c)
        state stored_state exchange (some ui) db).1 =
      (update_or_create now nextId userId platform_name ui.id
        { platform_username := ui.username
          platform_display_name := ui.display_name
          profile_picture_url := ui.profile_picture
          access_token := tok
          refresh_token := (exchange.refresh_token).getD ""
          status := AccountStatus.connected } db).1 := by
  unfold handle_oauth_callback
  have h400 : ¬ 400 ≤ exchange.status_code := by omega
  simp [hp, ht, hc, h400]

/-- Iterating a successful callback any positive number of times leaves
exactly one row for the connected triple, provided the table respected the
uniqueness invariant to begin with. -/
theorem countTriple_callbackIter (now nextId userId : Nat)
    (platforms : List SocialPlatform) (platform_name : String)
    (c : String) (state stored_state : Option String)
    (exchange : TokenResponse) (ui : PlatformUserInfo) (p : SocialPlatform)
    (tok : String)
    (hc : ¬ c = "")
    (hp : platforms.find? (fun q => q.name == platform_name && q.is_active) = some p)
    (hx : exchange.status_code < 400)
    (ht : exchange.access_token = some tok) :
    ∀ (n : Nat) (db : List UserSocialAccount),
      countTriple db userId platform_name ui.id ≤ 1 →
      countTriple
        (callbackIter now nextId userId platforms platform_name (some c) state
          stored_state exchange (some ui) (n + 1) db) userId platform_name ui.id
        = 1 := by
  have hstep : ∀ db : List UserSocialAccount,
      countTriple db userId platform_name ui.id ≤ 1 →
      countTriple
        (handle_oauth_callback now nextId userId platforms platform_name (some c)
          state stored_state exchange (some ui) db).1 userId platform_name ui.id
        = 1 := by
    intro db hdb
    rw [handle_oauth_callback_success_db now nextId userId platforms platform_name
      c state stored_state exchange ui p tok db hc hp hx ht]
    rw [countTriple_update_or_create]
    interval_cases h : countTriple db userId platform_name ui.id <;> simp
  intro n
  induction n with
  | zero =>
    intro db hdb
    show countTriple
      (handle_oauth_callback now nextId userId platforms platform_name (some c)
        state stored_state exchange (some ui) db).1 userId platform_name ui.id = 1
    exact hstep db hdb
  | succ m ih =>
    intro db hdb
    show countTriple
      (callbackIter now nextId userId platforms platform_name (some c) state
        stored_state exchange (some ui) (m + 1)
        (handle_oauth_callback now nextId userId platforms platform_name (some c)
          state stored_state exchange (some ui) db).1) userId platform_name ui.id = 1
    exact ih _ (le_of_eq (hstep db hdb))

/-- Claim C4: running the OAuth callback (code exchange followed by account
upsert) any positive number of times for the same user, platform and platform
user id is idempotent on account rows: exactly one UserSocialAccount row for
that triple exists afterwards, because update_or_create updates the matching
row in place instead of appending a duplicate. The table is assumed to
respect the unique_together invariant (at most one row for the triple) at the
start. -/
theorem c4_upsert_idempotent (now nextId userId : Nat)
    (platforms : List SocialPlatform) (platform_name : String)
    (c : String) (state stored_state : Option String)
    (exchange : TokenResponse) (ui : PlatformUserInfo) (p : SocialPlatform)
    (tok : String) (db : List UserSocialAccount) (n : Nat)
    (hc : ¬ c = "")
    (hp : platforms.find? (fun q => q.name == platform_name && q.is_active) = some p)
    (hx : exchange.status_code < 400)
    (ht : exchange.access_token = some tok)
    (hn : 1 ≤ n)
    (hdb : countTriple db userId platform_name ui.id ≤ 1) :
    countTriple
      (callbackIter now nextId userId platforms platform_name (some c) state
        stored_state exchange (some ui) n db) userId platform_name ui.id = 1 := by
  obtain ⟨m, rfl⟩ := Nat.exists_eq_add_of_le hn
  rw [Nat.add_comm 1 m]
  exact countTriple_callbackIter now nextId userId platforms platform_name c
    state stored_state exchange ui p tok hc hp hx ht m db hdb

/-- Witness for claim C4: three repeated successful callbacks for user 1 on
youtube, starting from the empty table, leave exactly one row for the triple. -/
theorem c4_upsert_idempotent_witness :
    countTriple
      (callbackIter 100 11 1 [ytPlatformCfg] ("youtube") (some goodCode)
        (some suppliedState) (some storedStateValue) exchangeOk (some ytUserInfo)
        3 []) 1 ("youtube") ytUserInfo.id = 1 :=
  c4_upsert_idempotent 100 11 1 [ytPlatformCfg] ("youtube") goodCode
    (some suppliedState) (some storedStateValue) exchangeOk ytUserInfo
    ytPlatformCfg ("tok") [] 3 (by decide) (by rfl) (by decide) (by rfl)
    (by decide) (by decide)

end SyncContent
